import Mathlib

/-!
# Audiobook market research tool — verification of the keyword research pipeline

Shallow embedding of `src/app/page.js` (component `AudiobookResearchTool`):
the keyword research pipeline (`handleSearch`), the aggregator/ranker
(`getOpportunityScore`, `avgPopularityScore`, `sortedByOpportunity`) and the
CSV exporter (`downloadCSV`).

Modelling conventions:
* JavaScript numbers are modelled exactly: every quantity the program
  manipulates is a small integer or a ratio of small integers, so its
  floating-point arithmetic coincides with exact rational arithmetic here.
  `Math.round(n / d)` for a positive integer divisor `d` is the integer
  `(2*n + d) / (2*d)` (floor division), and the specification's real-valued
  `round` is `⌊q + 1/2⌋` on `ℚ`; the two agree (`jsRoundDiv_eq_specRound`).
* A JSON field that a given object literal does not set (e.g. `popularityTrend`
  on a failed result, an absent `popularity` on an item) is `Option.none`;
  a field that is set is `Option.some`.
* The external search endpoint is a function `String → FetchOutcome`: for each
  keyword it either yields a parsed success payload (`ok`), a non-2xx HTTP
  status (`httpError`), or a thrown network error (`netError`).
* React state relevant to the pipeline is the pair
  (`results`, `previousResults`); `handleSearch` is the state transition it
  performs.  Inside the async handler the `previousResults` binding is the
  value captured at invocation time; `setPreviousResults(results)` only
  affects the state seen by later renders.
-/

namespace AudiobookResearch

/-- JavaScript `Math.round(n / d)` for integers `n` and a positive integer
divisor `d` (every divisor in this program is positive): round half toward
positive infinity, computed as floor division `(2*n + d) / (2*d)`. -/
def jsRoundDiv (n d : Int) : Int := (2*n + d) / (2*d)

/-- The specification's real-valued `round(q)` (half toward +∞), on `ℚ`. -/
def specRound (q : ℚ) : Int := ⌊q + 1/2⌋

/-- For a positive divisor, the program's integer rounding agrees with the
specification's real-valued rounding of the quotient. -/
theorem jsRoundDiv_eq_specRound (n : Int) (d : Nat) (hd : 0 < d) :
    jsRoundDiv n d = specRound ((n : ℚ) / (d : ℚ)) := by
  have hd0 : (d : ℚ) ≠ 0 := by exact_mod_cast hd.ne'
  have h1 : (n : ℚ)/(d : ℚ) + 1/2 = ((2*n + d : Int) : ℚ) / ((2*d : Nat) : ℚ) := by
    push_cast
    field_simp
    ring
  unfold jsRoundDiv specRound
  rw [h1, Rat.floor_intCast_div_natCast]
  push_cast
  ring_nf

/-- The same bridge, for a natural numerator. -/
theorem jsRoundDiv_natCast_eq_specRound (n d : Nat) (hd : 0 < d) :
    jsRoundDiv (n : Int) (d : Int) = specRound ((n : ℚ) / (d : ℚ)) := by
  have h := jsRoundDiv_eq_specRound (n : Int) d hd
  simpa using h

/-- One row of a run: the object pushed onto `searchResults` in `handleSearch`.
The success branch sets every field; the catch branch (failed keyword) sets
only `keyword`, `audiobooks := -1`, `avgPopularity := 0`,
`estimatedTrendsInterest := 0`, `error` and `timestamp`, leaving
`popularityTrend`, `supplyTrend`, `x`, `y`, `size` absent (`none`). -/
structure KeywordResult where
  keyword : String
  audiobooks : Int
  avgPopularity : Int
  estimatedTrendsInterest : Int
  popularityTrend : Option Int := none
  supplyTrend : Option Int := none
  timestamp : String
  x : Option Int := none
  y : Option Int := none
  size : Option Int := none
  error : Option String := none
  deriving DecidableEq

/-- Outcome of the `fetch` to the search endpoint for one keyword:
`ok total items` models a 2xx response whose JSON decodes to
`data.audiobooks.total = total` and `data.audiobooks.items = items`
(each item carrying an optional `popularity`); `httpError s` a non-2xx
status `s`; `netError m` a thrown error with message `m`. -/
inductive FetchOutcome where
  | ok (total : Nat) (items : List (Option Nat))
  | httpError (status : Nat)
  | netError (message : String)
  deriving DecidableEq

/-- `response.status === 401` on a non-ok response. -/
def is401 : FetchOutcome → Bool
  | .httpError s => s == 401
  | _ => false

/-- A non-2xx or thrown outcome (anything that does not reach the success
branch). -/
def isFailure : FetchOutcome → Bool
  | .ok _ _ => false
  | _ => true

/-- The `err.message` recorded for a failed keyword: the success branch throws
`new Error("API error: " + status)` on a non-2xx status, and a network error
carries its own message. -/
def failureMessage : FetchOutcome → String
  | .httpError s => "API error: " ++ toString s
  | .netError m => m
  | .ok _ _ => ""

/-- `book.popularity || 50`: an absent popularity is replaced by 50, and —
because `0` is falsy in JavaScript — so is a popularity of `0`. -/
def jsPopDefault : Option Nat → Nat
  | none => 50
  | some v => if v = 0 then 50 else v

/-- `const avgPopularity = audiobooks.length > 0 ? Math.round(...) : 50`:
the rounded mean of `book.popularity || 50` over the returned items,
or 50 for an empty item list. -/
def avgPopularity (items : List (Option Nat)) : Int :=
  if items.length > 0 then
    jsRoundDiv ((items.map jsPopDefault).sum : Int) (items.length : Int)
  else 50

/-- `Math.min(100, Math.round(count / 5))`. -/
def estimatedTrendsInterest (count : Nat) : Int :=
  min 100 (jsRoundDiv (count : Int) 5)

/-- The object pushed in the catch branch of `handleSearch` for a keyword
whose request failed (non-401): note that `popularityTrend`, `supplyTrend`,
`x`, `y`, `size` are not set. -/
def failedResult (date kw msg : String) : KeywordResult :=
  { keyword := kw
    audiobooks := -1
    avgPopularity := 0
    estimatedTrendsInterest := 0
    error := some msg
    timestamp := date }

/-- The object pushed in the success branch of `handleSearch`: derived
metrics plus trend deltas against `prev` (the `previousResults` binding the
handler captured), found by exact keyword match. -/
def successResult (prev : List KeywordResult) (date kw : String)
    (total : Nat) (items : List (Option Nat)) : KeywordResult :=
  let avg := avgPopularity items
  let demand := estimatedTrendsInterest total
  let prevResult := prev.find? (fun r => r.keyword == kw)
  let popularityTrend :=
    match prevResult with
    | some p => avg - p.avgPopularity
    | none => 0
  let supplyTrend :=
    match prevResult with
    | some p => (total : Int) - p.audiobooks
    | none => 0
  { keyword := kw
    audiobooks := (total : Int)
    avgPopularity := avg
    estimatedTrendsInterest := demand
    popularityTrend := some popularityTrend
    supplyTrend := some supplyTrend
    timestamp := date
    x := some (total : Int)
    y := some demand
    size := some (avg * 2)
    error := none }

/-- The `KeywordResult` recorded for one keyword whose outcome did not abort
the run (success, non-401 HTTP error, or network error). -/
def resultFor (prev : List KeywordResult) (date kw : String) :
    FetchOutcome → KeywordResult
  | .ok total items => successResult prev date kw total items
  | .httpError s => failedResult date kw ("API error: " ++ toString s)
  | .netError m => failedResult date kw m

/-- The error surfaced when a 401 aborts the run. -/
def tokenExpiredMessage : String := "Token expired. Request a new one."

/-- The `for` loop of `handleSearch`: process the keywords in order; a 401
response aborts immediately (returning the results accumulated so far and the
token-expired error), any other failure records a failed row and continues. -/
def runLoop (prev : List KeywordResult) (date : String)
    (api : String → FetchOutcome) :
    List String → List KeywordResult × Option String
  | [] => ([], none)
  | kw :: rest =>
    if is401 (api kw) then ([], some tokenExpiredMessage)
    else
      (resultFor prev date kw (api kw) :: (runLoop prev date api rest).1,
       (runLoop prev date api rest).2)

/-- `keywords.split('\n').map(k => k.trim()).filter(k => k.length > 0)`. -/
def parseKeywords (raw : String) : List String :=
  ((raw.splitOn "\n").map String.trim).filter (fun k => k.length > 0)

/-- The React state `handleSearch` reads and writes: the current run's
results and the previous snapshot used for deltas. -/
structure AppState where
  results : List KeywordResult
  previousResults : List KeywordResult
  deriving DecidableEq

/-- `handleSearch` as a state transition, taking the keyword list the
component derives from the textarea (`parseKeywords`).  With a non-empty
list it runs the loop with `prev :=` the `previousResults` binding captured
when the handler was invoked (the state update `setPreviousResults(results)`
is only visible to later renders), and leaves the new state with
`results :=` the produced snapshot and `previousResults :=` the old
`results`.  An empty keyword list only sets an error and changes nothing
(the early return precedes both state updates). -/
def handleSearch (st : AppState) (api : String → FetchOutcome)
    (date : String) (keywordList : List String) : AppState :=
  if keywordList.isEmpty then st
  else
    { results := (runLoop st.previousResults date api keywordList).1
      previousResults := st.results }

/-- `getOpportunityScore`: `null` for a failed row, otherwise
`Math.round(demand / (supply + 1) * 100)`.  The divisor `supply + 1` is
positive for every row the pipeline can produce with `error` absent
(`itemCount ≥ 0`). -/
def getOpportunityScore (r : KeywordResult) : Option Int :=
  if r.error.isSome then none
  else some (jsRoundDiv (r.estimatedTrendsInterest * 100) (r.audiobooks + 1))

/-- `getOpportunityScore(x) || -1` as used by the sort comparator: a `null`
score — and, `0` being falsy, a computed score of `0` — becomes `-1`. -/
def effectiveScore (r : KeywordResult) : Int :=
  match getOpportunityScore r with
  | none => -1
  | some v => if v = 0 then -1 else v

/-- The order realised by `[...results].sort((a, b) => scoreB - scoreA)`:
`a` may stay before `b` iff `a`'s effective score is ≥ `b`'s. -/
def scoreOrder (a b : KeywordResult) : Prop :=
  effectiveScore b ≤ effectiveScore a

instance : DecidableRel scoreOrder := fun a b =>
  inferInstanceAs (Decidable (effectiveScore b ≤ effectiveScore a))

instance : IsTotal KeywordResult scoreOrder :=
  ⟨fun a b => le_total (effectiveScore b) (effectiveScore a)⟩

instance : IsTrans KeywordResult scoreOrder :=
  ⟨fun _ _ _ hab hbc => le_trans hbc hab⟩

/-- `sortedByOpportunity`: JavaScript `Array.prototype.sort` is stable, so
with the numeric comparator `scoreB - scoreA` it is the stable descending
sort by effective score, i.e. insertion sort with `scoreOrder`. -/
def sortedByOpportunity (results : List KeywordResult) : List KeywordResult :=
  List.insertionSort scoreOrder results

/-- The `Avg Popularity` summary statistic: for a non-empty result list,
`Math.round((Σ r.avgPopularity) / #successful)`; `none` models the
non-numeric value (`NaN`) JavaScript produces when every result failed and
the divisor is `0`; `0` for an empty list. -/
def avgPopularityScore (results : List KeywordResult) : Option Int :=
  if results.length > 0 then
    if (results.filter (fun r => r.error.isNone)).length = 0 then none
    else some (jsRoundDiv ((results.map (fun r => r.avgPopularity)).sum)
        ((results.filter (fun r => r.error.isNone)).length : Int))
  else some 0

/-- The CSV header cells. -/
def csvHeaders : List String :=
  ["Keyword", "Audiobooks Found", "Avg Popularity", "Estimated Trends Interest",
   "Popularity Trend", "Supply Trend", "Status"]

/-- A trend cell: `t > 0 ? '+' + t : t`, stringified by the template
literal (an absent trend would stringify to `"undefined"`). -/
def trendCell : Option Int → String
  | some v => if 0 < v then "+" ++ toString v else toString v
  | none => "undefined"

/-- The raw (unquoted) cells of one CSV data row, as built in
`downloadCSV`. -/
def csvCells (r : KeywordResult) : List String :=
  [ r.keyword,
    if r.error.isSome then "Error" else toString r.audiobooks,
    if r.error.isSome then "-" else toString r.avgPopularity,
    if r.error.isSome then "-" else toString r.estimatedTrendsInterest,
    if r.error.isSome then "-" else trendCell r.popularityTrend,
    if r.error.isSome then "-" else trendCell r.supplyTrend,
    match r.error with
    | some e => e
    | none => "OK" ]

/-- `cell => `\x22${cell}\x22``: wrap the stringified cell in one pair of
double quotes, with no escaping of the content. -/
def quoteCell (s : String) : String := "\"" ++ s ++ "\""

/-- One quoted CSV data row: `row.map(cell => ...).join(',')`. -/
def csvRowLine (r : KeywordResult) : String :=
  String.intercalate "," ((csvCells r).map quoteCell)

/-- The CSV text assembled by `downloadCSV`:
`[headers.join(','), ...rows].join('\n')`. -/
def downloadCSV (results : List KeywordResult) : String :=
  String.intercalate "\n"
    (String.intercalate "," csvHeaders :: results.map csvRowLine)

/-! ## Basic facts about the per-keyword step -/

/-- Every row is recorded under the keyword that was searched. -/
theorem resultFor_keyword (prev : List KeywordResult) (date kw : String)
    (o : FetchOutcome) : (resultFor prev date kw o).keyword = kw := by
  cases o <;> rfl

/-- A non-success outcome is recorded as the catch branch's failed row. -/
theorem resultFor_of_failure (prev : List KeywordResult) (date kw : String)
    (o : FetchOutcome) (h : isFailure o = true) :
    resultFor prev date kw o = failedResult date kw (failureMessage o) := by
  cases o with
  | ok _ _ => simp [isFailure] at h
  | httpError s => rfl
  | netError m => rfl

/-- When no response is a 401, the loop records exactly one row per keyword,
in input order, and does not abort. -/
theorem runLoop_eq_map_of_no401 (prev : List KeywordResult) (date : String)
    (api : String → FetchOutcome) :
    ∀ kws : List String, (∀ k ∈ kws, is401 (api k) = false) →
      runLoop prev date api kws
        = (kws.map (fun k => resultFor prev date k (api k)), none)
  | [], _ => rfl
  | kw :: rest, h => by
    have hkw : is401 (api kw) = false := h kw (by simp)
    have hrest := runLoop_eq_map_of_no401 prev date api rest
      (fun k hk => h k (by simp [hk]))
    simp [runLoop, hkw, hrest]

/-- Every failed row the loop can produce has `avgPopularity = 0`. -/
theorem runLoop_failed_avgPopularity (prev : List KeywordResult) (date : String)
    (api : String → FetchOutcome) :
    ∀ kws : List String, ∀ r ∈ (runLoop prev date api kws).1,
      r.error.isSome → r.avgPopularity = 0
  | [], r, hr => by simp [runLoop] at hr
  | kw :: rest, r, hr => by
    by_cases h401 : is401 (api kw)
    · simp [runLoop, h401] at hr
    · simp only [runLoop, h401, if_neg, Bool.false_eq_true, not_false_eq_true,
        List.mem_cons] at hr
      intro herr
      rcases hr with hr | hr
      · subst hr
        cases ho : api kw with
        | ok total items =>
          rw [ho] at herr
          simp [resultFor, successResult] at herr
        | httpError s => rfl
        | netError m => rfl
      · exact runLoop_failed_avgPopularity prev date api rest r hr herr

/-! ## C1 — trend deltas against the previous run -/

/-- The search endpoint during the first run for `"mystery"`: total 10,
one item of popularity 40, so the recorded row has
`avgPopularityScore = 40` and `itemCount = 10`. -/
def mysteryRun1Api : String → FetchOutcome := fun _ => .ok 10 [some 40]

/-- The search endpoint during the re-run: total 8, one item of
popularity 55, so the new run computes `avgPopularityScore = 55` and
`itemCount = 8`. -/
def mysteryRun2Api : String → FetchOutcome := fun _ => .ok 8 [some 55]

/-- C1: the claim demands `popularityDelta = 15` and `supplyDelta = -2` on
the second run, but the code computes both deltas against the
`previousResults` binding captured when the handler was invoked — the
snapshot from *two* runs back, not the immediately preceding run.  Starting
from the initial state, run 1 records (`avgPopularityScore = 40`,
`itemCount = 10`) for `"mystery"`; the re-run computes
(`avgPopularityScore = 55`, `itemCount = 8`) yet emits `popularityDelta = 0`
and `supplyDelta = 0`; the claimed deltas `(+15, -2)` only appear if the
same run is repeated a third time. -/
theorem delta_uses_stale_snapshot :
    ((handleSearch ⟨[], []⟩ mysteryRun1Api "2026-01-01" ["mystery"]).results.map
        (fun r => (r.keyword, r.avgPopularity, r.audiobooks)) = [("mystery", 40, 10)])
    ∧ ((handleSearch (handleSearch ⟨[], []⟩ mysteryRun1Api "2026-01-01" ["mystery"])
          mysteryRun2Api "2026-01-02" ["mystery"]).results.map
        (fun r => (r.avgPopularity, r.audiobooks, r.popularityTrend, r.supplyTrend))
        = [(55, 8, some 0, some 0)])
    ∧ ((handleSearch (handleSearch (handleSearch ⟨[], []⟩ mysteryRun1Api "2026-01-01" ["mystery"])
          mysteryRun2Api "2026-01-02" ["mystery"]) mysteryRun2Api "2026-01-03" ["mystery"]).results.map
        (fun r => (r.popularityTrend, r.supplyTrend)) = [(some 15, some (-2))]) := by
  decide

/-! ## C2 — one result per keyword, in input order -/

/-- C2: when the run does not abort, the snapshot holds exactly one
`KeywordResult` per input keyword, in the order of the input. -/
theorem pipeline_keywords_in_order (prev : List KeywordResult) (date : String)
    (api : String → FetchOutcome) (kws : List String)
    (h : (runLoop prev date api kws).2 = none) :
    ((runLoop prev date api kws).1).map (fun r => r.keyword) = kws
    ∧ ((runLoop prev date api kws).1).length = kws.length := by
  induction kws with
  | nil => simp [runLoop]
  | cons kw rest ih =>
    by_cases h401 : is401 (api kw)
    · simp [runLoop, h401, tokenExpiredMessage] at h
    · have h2 : (runLoop prev date api rest).2 = none := by
        simpa [runLoop, h401] using h
      obtain ⟨ih1, ih2⟩ := ih h2
      refine ⟨?_, ?_⟩
      · simp [runLoop, h401, ih1, resultFor_keyword]
      · simp [runLoop, h401, ih2]

/-- Witness for C2 at a concrete two-keyword run. -/
theorem pipeline_keywords_in_order_witness :
    (runLoop [] "2026-01-01" (fun _ => .ok 3 []) ["a", "b"]).2 = none
    ∧ ((runLoop [] "2026-01-01" (fun _ => .ok 3 []) ["a", "b"]).1).map
        (fun r => r.keyword) = ["a", "b"]
    ∧ ((runLoop [] "2026-01-01" (fun _ => .ok 3 []) ["a", "b"]).1).length = 2 :=
  ⟨by decide,
   (pipeline_keywords_in_order [] "2026-01-01" (fun _ => .ok 3 []) ["a", "b"]
      (by decide)).1,
   (pipeline_keywords_in_order [] "2026-01-01" (fun _ => .ok 3 []) ["a", "b"]
      (by decide)).2⟩

/-! ## C3 — a 401 aborts the rest of the run -/

/-- C3: if every keyword before `kw` gets a non-401 response and `kw` gets a
401, the run aborts at `kw` with the token-expired signal: the snapshot is
exactly the rows of the keywords before `kw`, and neither `kw` nor any later
keyword is represented. -/
theorem abort_on_unauthorized (prev : List KeywordResult) (date : String)
    (api : String → FetchOutcome) (ks1 : List String) (kw : String)
    (ks2 : List String)
    (h1 : ∀ k ∈ ks1, is401 (api k) = false)
    (h2 : is401 (api kw) = true) :
    runLoop prev date api (ks1 ++ kw :: ks2)
      = (ks1.map (fun k => resultFor prev date k (api k)), some tokenExpiredMessage)
    ∧ (runLoop prev date api (ks1 ++ kw :: ks2)).1.length = ks1.length := by
  have key : runLoop prev date api (ks1 ++ kw :: ks2)
      = (ks1.map (fun k => resultFor prev date k (api k)), some tokenExpiredMessage) := by
    induction ks1 with
    | nil => simp [runLoop, h2]
    | cons a t ih =>
      have ha : is401 (api a) = false := h1 a (by simp)
      have ht := ih (fun k hk => h1 k (by simp [hk]))
      simp [runLoop, ha, ht]
  exact ⟨key, by simp [key]⟩

/-- Witness for C3: a 401 on the 3rd of 5 keywords yields a snapshot of
exactly the 2 completed rows and the token-expired signal. -/
theorem abort_on_unauthorized_witness :
    (∀ k ∈ ["k1", "k2"],
      is401 ((fun k => if k = "k3" then FetchOutcome.httpError 401
        else FetchOutcome.ok 5 []) k) = false)
    ∧ is401 ((fun k => if k = "k3" then FetchOutcome.httpError 401
        else FetchOutcome.ok 5 []) "k3") = true
    ∧ (runLoop [] "2026-01-01"
        (fun k => if k = "k3" then FetchOutcome.httpError 401 else FetchOutcome.ok 5 [])
        ["k1", "k2", "k3", "k4", "k5"]).1.length = 2 :=
  ⟨by decide, by decide,
   (abort_on_unauthorized [] "2026-01-01"
      (fun k => if k = "k3" then FetchOutcome.httpError 401 else FetchOutcome.ok 5 [])
      ["k1", "k2"] "k3" ["k4", "k5"] (by decide) (by decide)).2⟩

/-! ## C4 — a non-401 failure is recorded and the run continues -/

/-- The search endpoint failing with HTTP 500 on `"b"` only. -/
def failSecondApi : String → FetchOutcome :=
  fun k => if k = "b" then .httpError 500 else .ok 5 [some 40]

/-- Counterexample to C4 as stated: the failed row's `popularityDelta` and
`supplyDelta` are not "set to 0" — the catch branch never sets them, so they
are absent (`none`), unlike the surrounding successful rows' `some 0`. -/
theorem failed_trend_fields_absent_cex :
    ((runLoop [] "2026-01-01" failSecondApi ["a", "b", "c"]).1).map
        (fun r => (r.keyword, r.audiobooks, r.popularityTrend, r.supplyTrend, r.error))
      = [("a", 5, some 0, some 0, none),
         ("b", -1, none, none, some "API error: 500"),
         ("c", 5, some 0, some 0, none)]
    ∧ (none : Option Int) ≠ some 0 := by
  decide

/-- C4 (amended): a keyword whose request fails with a non-401 error is
recorded as failed — `itemCount = -1`, `avgPopularityScore = 0`,
`estimatedDemandScore = 0`, `errorMessage` describing the failure, and
`popularityDelta`/`supplyDelta` left absent rather than set to 0 — and the
loop continues, so every other keyword still gets its normal row. -/
theorem failed_keyword_recorded (prev : List KeywordResult) (date : String)
    (api : String → FetchOutcome) (ks1 : List String) (kw : String)
    (ks2 : List String)
    (h1 : ∀ k ∈ ks1, is401 (api k) = false)
    (h2 : ∀ k ∈ ks2, is401 (api k) = false)
    (h3 : isFailure (api kw) = true)
    (h4 : is401 (api kw) = false) :
    runLoop prev date api (ks1 ++ kw :: ks2)
      = (ks1.map (fun k => resultFor prev date k (api k))
          ++ failedResult date kw (failureMessage (api kw))
            :: ks2.map (fun k => resultFor prev date k (api k)), none)
    ∧ (failedResult date kw (failureMessage (api kw))).audiobooks = -1
    ∧ (failedResult date kw (failureMessage (api kw))).avgPopularity = 0
    ∧ (failedResult date kw (failureMessage (api kw))).estimatedTrendsInterest = 0
    ∧ (failedResult date kw (failureMessage (api kw))).popularityTrend = none
    ∧ (failedResult date kw (failureMessage (api kw))).supplyTrend = none
    ∧ (failedResult date kw (failureMessage (api kw))).error
        = some (failureMessage (api kw)) := by
  have hall : ∀ k ∈ ks1 ++ kw :: ks2, is401 (api k) = false := by
    intro k hk
    rcases List.mem_append.1 hk with hk | hk
    · exact h1 k hk
    · rcases List.mem_cons.1 hk with hk | hk
      · subst hk; exact h4
      · exact h2 k hk
  have key := runLoop_eq_map_of_no401 prev date api (ks1 ++ kw :: ks2) hall
  refine ⟨?_, rfl, rfl, rfl, rfl, rfl, rfl⟩
  rw [key]
  simp [resultFor_of_failure prev date kw (api kw) h3]

/-- Witness for C4 (amended): a 500 on the 2nd of 3 keywords still yields 3
rows, the middle one failed. -/
theorem failed_keyword_recorded_witness :
    runLoop [] "2026-01-01" failSecondApi ["a", "b", "c"]
      = (["a"].map (fun k => resultFor [] "2026-01-01" k (failSecondApi k))
          ++ failedResult "2026-01-01" "b" (failureMessage (failSecondApi "b"))
            :: ["c"].map (fun k => resultFor [] "2026-01-01" k (failSecondApi k)), none)
    ∧ (failedResult "2026-01-01" "b" (failureMessage (failSecondApi "b"))).audiobooks = -1 :=
  ⟨(failed_keyword_recorded [] "2026-01-01" failSecondApi ["a"] "b" ["c"]
      (by decide) (by decide) (by decide) (by decide)).1,
   (failed_keyword_recorded [] "2026-01-01" failSecondApi ["a"] "b" ["c"]
      (by decide) (by decide) (by decide) (by decide)).2.1⟩

/-! ## C5 — the per-keyword popularity average -/

/-- The claim's formula, rendered from the spec's words: the rounded mean of
the items' popularity values in which an **absent** popularity contributes
the default 50, the empty item list defaulting to 50 as a whole. -/
def avgPopularitySpec (items : List (Option Nat)) : Int :=
  if items.length > 0 then
    specRound (((items.map (fun p => p.getD 50)).sum : ℚ) / (items.length : ℚ))
  else 50

/-- The amended formula: an absent **or zero** popularity contributes 50
(JavaScript `||` treats the number 0 like an absent value). -/
def avgPopularityAmended (items : List (Option Nat)) : Int :=
  if items.length > 0 then
    specRound ((((items.map (fun p =>
        match p with
        | none => (50 : Nat)
        | some v => if v = 0 then 50 else v)).sum : Nat) : ℚ) / (items.length : ℚ))
  else 50

/-- Counterexample to C5 as stated: one returned item whose popularity field
is present and equal to 0.  The claim's formula gives a mean of 0, but the
code's `book.popularity || 50` replaces the falsy 0 by the default, and the
emitted `avgPopularityScore` is 50. -/
theorem zero_popularity_defaulted_cex :
    (successResult [] "2026-01-01" "kw" 1 [some 0]).avgPopularity = 50
    ∧ avgPopularitySpec [some 0] = 0
    ∧ (50 : Int) ≠ 0 := by
  refine ⟨by decide, ?_, by decide⟩
  have h := jsRoundDiv_eq_specRound 0 1 (by decide)
  simp only [avgPopularitySpec, List.map_cons, List.map_nil, Option.getD_some,
    List.sum_cons, List.sum_nil, List.length_cons, List.length_nil] at *
  norm_num at h ⊢
  rw [← h]
  decide

/-- C5 (amended): the emitted `avgPopularityScore` is the rounded mean of the
items' popularity values in which an absent or zero popularity contributes
50, and the whole average defaults to 50 on an empty item list. -/
theorem avg_popularity_formula (prev : List KeywordResult) (date kw : String)
    (total : Nat) (items : List (Option Nat)) :
    (successResult prev date kw total items).avgPopularity
      = avgPopularityAmended items := by
  show avgPopularity items = avgPopularityAmended items
  unfold avgPopularity avgPopularityAmended
  by_cases h : items.length > 0
  · simp only [h, if_true]
    have heq : (items.map (fun p =>
        match p with
        | none => (50 : Nat)
        | some v => if v = 0 then 50 else v)) = items.map jsPopDefault := by
      apply List.map_congr_left
      intro p _
      cases p with
      | none => rfl
      | some v => rfl
    rw [heq, jsRoundDiv_natCast_eq_specRound _ items.length h]
  · simp [h]

/-! ## C6 — the opportunity ranking -/

/-- A row recorded for a failed keyword. -/
def failedRow : KeywordResult := failedResult "2026-01-01" "a" "API error: 500"

/-- A successful row whose computed opportunity score is 0: total 2 gives
`estimatedDemandScore = min(100, round(2/5)) = 0`, hence a score of
`round(0/3*100) = 0`. -/
def zeroScoreRow : KeywordResult := successResult [] "2026-01-01" "b" 2 [some 50]

/-- A list is sorted for the comparator whenever every element has the same
effective score. -/
theorem sorted_of_const_effectiveScore :
    ∀ l : List KeywordResult, (∀ r ∈ l, effectiveScore r = -1) →
      List.Sorted scoreOrder l
  | [], _ => List.sorted_nil
  | a :: t, h => by
    rw [List.sorted_cons]
    refine ⟨fun b hb => ?_,
      sorted_of_const_effectiveScore t (fun r hr => h r (by simp [hr]))⟩
    unfold scoreOrder
    rw [h a (by simp), h b (by simp [hb])]

/-- Inserting `a` with the comparator places it after exactly the elements
whose effective score is strictly greater, so within each effective-score
class the insertion puts `a` first and disturbs nothing else. -/
theorem orderedInsert_filter_key (a : KeywordResult) (s : Int) :
    ∀ l : List KeywordResult,
      (List.orderedInsert scoreOrder a l).filter (fun b => effectiveScore b == s)
        = if effectiveScore a = s
          then a :: l.filter (fun b => effectiveScore b == s)
          else l.filter (fun b => effectiveScore b == s) := by
  intro l
  induction l with
  | nil =>
    by_cases h : effectiveScore a = s <;> simp [List.orderedInsert, h]
  | cons b l ih =>
    by_cases hr : scoreOrder a b
    · by_cases h : effectiveScore a = s <;>
        simp [List.orderedInsert, hr, List.filter_cons, h]
    · have hb : effectiveScore a < effectiveScore b := by
        have := hr
        unfold scoreOrder at this
        exact lt_of_not_le this
      by_cases h : effectiveScore a = s
      · have hbs : ¬ effectiveScore b = s := by omega
        simp [List.orderedInsert, hr, List.filter_cons, ih, h, hbs]
      · by_cases hbs : effectiveScore b = s <;>
          simp [List.orderedInsert, hr, List.filter_cons, ih, h, hbs]

/-- Stability of the ranking: for every effective score, the rows of that
score appear in the sorted output exactly as they appear in the input — ties
retain the original keyword-input order. -/
theorem sortedByOpportunity_filter_key (results : List KeywordResult) (s : Int) :
    (sortedByOpportunity results).filter (fun r => effectiveScore r == s)
      = results.filter (fun r => effectiveScore r == s) := by
  unfold sortedByOpportunity
  induction results with
  | nil => rfl
  | cons a t ih =>
    rw [List.insertionSort, orderedInsert_filter_key a s, ih]
    by_cases h : effectiveScore a = s
    · rw [if_pos h, List.filter_cons]
      simp [h]
    · rw [if_neg h, List.filter_cons]
      simp [h]

/-- Counterexample to C6 as stated: a successful result with a computed
opportunity score of 0 does **not** rank above a failed result.  The
comparator reads `getOpportunityScore(x) || -1`, and `0` is falsy, so the
zero-score row is treated exactly like the failed row (both `-1`); with the
failed row first in input order, the stable sort leaves it first. -/
theorem zero_score_ties_failed_cex :
    zeroScoreRow.error = none
    ∧ getOpportunityScore zeroScoreRow = some 0
    ∧ failedRow.error.isSome = true
    ∧ sortedByOpportunity [failedRow, zeroScoreRow] = [failedRow, zeroScoreRow] := by
  decide

/-- C6 (amended): the ranking is the stable descending sort by effective
score, where an undefined score **and a computed score of 0** are both
treated as `-1`.  It is a permutation of the snapshot, sorted descending by
effective score, and stable: for every effective score, the rows of that
score appear in the output exactly as in the input (ties retain original
keyword-input order); in particular a snapshot of all-failed results (all
effective scores `-1`) is left in input order. -/
theorem ranking_amended (results : List KeywordResult) :
    (sortedByOpportunity results).Perm results
    ∧ List.Sorted scoreOrder (sortedByOpportunity results)
    ∧ (∀ r : KeywordResult, r.error = none → getOpportunityScore r = some 0 →
        effectiveScore r = -1)
    ∧ (∀ r : KeywordResult, r.error.isSome = true → effectiveScore r = -1)
    ∧ ((∀ r ∈ results, r.error.isSome = true) →
        sortedByOpportunity results = results)
    ∧ (∀ s : Int,
        (sortedByOpportunity results).filter (fun r => effectiveScore r == s)
          = results.filter (fun r => effectiveScore r == s)) := by
  refine ⟨List.perm_insertionSort scoreOrder results,
    List.sorted_insertionSort scoreOrder results, ?_, ?_, ?_,
    fun s => sortedByOpportunity_filter_key results s⟩
  · intro r _ hscore
    simp [effectiveScore, hscore]
  · intro r herr
    simp [effectiveScore, getOpportunityScore, herr]
  · intro hall
    exact List.Sorted.insertionSort_eq
      (sorted_of_const_effectiveScore results
        (fun r hr => by
          simp [effectiveScore, getOpportunityScore, hall r hr]))

/-- Two distinct successful rows sharing the same nonzero opportunity score:
total 20 gives `estimatedDemandScore = 4` and score `round(400/21) = 19`. -/
def tieRowA : KeywordResult := successResult [] "2026-01-01" "t1" 20 [some 60]

/-- The second of the two tied successful rows (different keyword and
popularity, same score 19). -/
def tieRowB : KeywordResult := successResult [] "2026-01-01" "t2" 20 [some 30]

/-- Witness for C6 (amended) at concrete rows: an all-failed snapshot keeps
its order, a zero-score success has effective score `-1`, and two distinct
successful rows tied at the nonzero score 19 retain their input order in the
sorted output. -/
theorem ranking_amended_witness :
    (∀ r ∈ [failedRow], r.error.isSome = true)
    ∧ sortedByOpportunity [failedRow] = [failedRow]
    ∧ effectiveScore zeroScoreRow = -1
    ∧ effectiveScore tieRowA = 19
    ∧ effectiveScore tieRowB = 19
    ∧ tieRowA ≠ tieRowB
    ∧ [tieRowA, tieRowB].filter (fun r => effectiveScore r == 19)
        = [tieRowA, tieRowB]
    ∧ (sortedByOpportunity [tieRowA, tieRowB]).filter
        (fun r => effectiveScore r == 19) = [tieRowA, tieRowB] :=
  ⟨by decide,
   (ranking_amended [failedRow]).2.2.2.2.1 (by decide),
   (ranking_amended [failedRow]).2.2.1 zeroScoreRow (by decide) (by decide),
   by decide, by decide, by decide, by decide,
   by
    have h := (ranking_amended [tieRowA, tieRowB]).2.2.2.2.2 19
    rw [h]
    decide⟩

/-! ## C7 — the opportunity score formula -/

/-- C7: for a successful result (`itemCount ≥ 0`, per the data model) the
opportunity score is `round(estimatedDemandScore / (itemCount + 1) * 100)`;
for a failed result it is undefined.  With `itemCount = 0` it is
`estimatedDemandScore * 100`, and with `itemCount = 499`,
`estimatedDemandScore = 99` it is 20. -/
theorem opportunity_score_formula :
    (∀ r : KeywordResult, r.error = none → 0 ≤ r.audiobooks →
        getOpportunityScore r
          = some (specRound ((r.estimatedTrendsInterest : ℚ)
              / ((r.audiobooks : ℚ) + 1) * 100)))
    ∧ (∀ r : KeywordResult, r.error.isSome = true → getOpportunityScore r = none)
    ∧ (∀ r : KeywordResult, r.error = none → r.audiobooks = 0 →
        getOpportunityScore r = some (r.estimatedTrendsInterest * 100))
    ∧ (∀ r : KeywordResult, r.error = none → r.audiobooks = 499 →
        r.estimatedTrendsInterest = 99 → getOpportunityScore r = some 20) := by
  refine ⟨?_, ?_, ?_, ?_⟩
  · intro r herr hnn
    obtain ⟨m, hm⟩ : ∃ m : Nat, r.audiobooks = (m : Int) :=
      ⟨r.audiobooks.toNat, (Int.toNat_of_nonneg hnn).symm⟩
    have hb := jsRoundDiv_eq_specRound (r.estimatedTrendsInterest * 100)
      (m + 1) (Nat.succ_pos m)
    simp only [getOpportunityScore, herr, Option.isSome_none, Bool.false_eq_true,
      if_false, hm, Option.some.injEq]
    rw [show ((m : Int) + 1) = ((m + 1 : Nat) : Int) by push_cast; ring, hb]
    congr 1
    push_cast
    have hne : ((m : ℚ) + 1) ≠ 0 := by positivity
    field_simp
  · intro r herr
    simp [getOpportunityScore, herr]
  · intro r herr h0
    simp only [getOpportunityScore, herr, Option.isSome_none, Bool.false_eq_true,
      if_false, h0, Option.some.injEq, jsRoundDiv]
    omega
  · intro r herr h499 h99
    simp only [getOpportunityScore, herr, Option.isSome_none, Bool.false_eq_true,
      if_false, h499, h99]
    decide

/-- A successful row as in the spec's worked example: `itemCount = 499` and
`estimatedDemandScore = 99`. -/
def sampleScoredRow : KeywordResult :=
  { keyword := "w"
    audiobooks := 499
    avgPopularity := 10
    estimatedTrendsInterest := 99
    timestamp := "2026-01-01" }

/-- Witness for C7: the worked example evaluates to 20. -/
theorem opportunity_score_formula_witness :
    sampleScoredRow.error = none
    ∧ sampleScoredRow.audiobooks = 499
    ∧ sampleScoredRow.estimatedTrendsInterest = 99
    ∧ getOpportunityScore sampleScoredRow = some 20 :=
  ⟨rfl, rfl, rfl,
   opportunity_score_formula.2.2.2 sampleScoredRow rfl (by decide) (by decide)⟩

/-! ## C8 — the Avg Popularity summary statistic -/

/-- `specRound 0 = 0`. -/
theorem specRound_zero : specRound 0 = 0 := by
  have h := jsRoundDiv_eq_specRound 0 1 (by decide)
  norm_num at h
  rw [← h]
  decide

/-- The claim's formula: rounded mean of `avgPopularityScore` over the
successful results only, `0` for an empty snapshot.  (For a non-empty
snapshot with no successful result the claim's "mean over the successful
results" has an empty denominator; rendered with ℚ's `0 / 0 = 0` convention
this formula still names an integer.) -/
def avgPopularitySummarySpec (results : List KeywordResult) : Int :=
  if results.isEmpty then 0
  else
    specRound (((((results.filter (fun r => r.error.isNone)).map
        (fun r => r.avgPopularity)).sum : Int) : ℚ)
      / ((results.filter (fun r => r.error.isNone)).length : ℚ))

/-- Summing `avgPopularity` over all rows equals summing it over the
successful rows, whenever every failed row carries `avgPopularity = 0`. -/
theorem sum_avgPopularity_filter :
    ∀ l : List KeywordResult,
      (∀ r ∈ l, r.error.isSome = true → r.avgPopularity = 0) →
      (l.map (fun r => r.avgPopularity)).sum
        = ((l.filter (fun r => r.error.isNone)).map (fun r => r.avgPopularity)).sum
  | [], _ => rfl
  | a :: t, h => by
    have ht := sum_avgPopularity_filter t (fun r hr => h r (by simp [hr]))
    cases h' : a.error with
    | none => simp [List.filter_cons, h', ht]
    | some e =>
      have ha0 : a.avgPopularity = 0 := h a (by simp) (by simp [h'])
      simp [List.filter_cons, h', ht, ha0]

/-- Counterexample to C8 as stated: a non-empty snapshot in which every
result failed.  The divisor (number of successful results) is 0, so the
code's statistic is the non-numeric `NaN` (modelled `none`) — it does not
equal the claim's rounded mean, which is an integer. -/
theorem all_failed_avg_stat_cex :
    avgPopularityScore [failedRow] = none
    ∧ avgPopularitySummarySpec [failedRow] = 0
    ∧ (none : Option Int) ≠ some 0 := by
  refine ⟨by decide, ?_, by decide⟩
  have hfil : ([failedRow].filter (fun r => r.error.isNone)) = [] := by decide
  simp [avgPopularitySummarySpec, hfil, specRound_zero]

/-- C8 (amended): on any snapshot the pipeline can produce, the statistic is
the rounded mean of `avgPopularityScore` over the successful results when at
least one result succeeded, `0` when the snapshot is empty, and the
non-numeric `NaN` (modelled `none`) when the snapshot is non-empty but every
result failed. -/
theorem avg_popularity_stat (prev : List KeywordResult) (date : String)
    (api : String → FetchOutcome) (kws : List String)
    (results : List KeywordResult)
    (hres : results = (runLoop prev date api kws).1) :
    (results = [] → avgPopularityScore results = some 0)
    ∧ (0 < (results.filter (fun r => r.error.isNone)).length →
        avgPopularityScore results
          = some (specRound
              (((((results.filter (fun r => r.error.isNone)).map
                  (fun r => r.avgPopularity)).sum : Int) : ℚ)
                / ((results.filter (fun r => r.error.isNone)).length : ℚ))))
    ∧ (results ≠ [] → (results.filter (fun r => r.error.isNone)).length = 0 →
        avgPopularityScore results = none) := by
  have hinv : ∀ r ∈ results, r.error.isSome = true → r.avgPopularity = 0 := by
    rw [hres]
    exact runLoop_failed_avgPopularity prev date api kws
  refine ⟨?_, ?_, ?_⟩
  · intro h
    simp [avgPopularityScore, h]
  · intro hpos
    have hlen : 0 < results.length :=
      lt_of_lt_of_le hpos (List.length_filter_le _ _)
    rw [avgPopularityScore, if_pos hlen, if_neg hpos.ne',
      sum_avgPopularity_filter results hinv,
      jsRoundDiv_eq_specRound _ _ hpos]
  · intro hne hzero
    have hlen : 0 < results.length := List.length_pos.2 hne
    rw [avgPopularityScore, if_pos hlen, if_pos hzero]

/-- Witness for C8 (amended) on a one-keyword successful run. -/
theorem avg_popularity_stat_witness :
    0 < ((runLoop [] "2026-01-01" (fun _ => .ok 5 [some 40]) ["a"]).1.filter
        (fun r => r.error.isNone)).length
    ∧ avgPopularityScore (runLoop [] "2026-01-01" (fun _ => .ok 5 [some 40]) ["a"]).1
      = some (specRound
          ((((((runLoop [] "2026-01-01" (fun _ => .ok 5 [some 40]) ["a"]).1.filter
              (fun r => r.error.isNone)).map (fun r => r.avgPopularity)).sum : Int) : ℚ)
            / (((runLoop [] "2026-01-01" (fun _ => .ok 5 [some 40]) ["a"]).1.filter
              (fun r => r.error.isNone)).length : ℚ))) :=
  ⟨by decide,
   (avg_popularity_stat [] "2026-01-01" (fun _ => .ok 5 [some 40]) ["a"] _ rfl).2.1
     (by decide)⟩

/-! ## C9 — CSV rendering of rows -/

/-- C9: every cell of a result row is double-quoted; a failed row renders
`Error` in the count column, `-` in the four numeric columns and the captured
error text in the status column; a successful row renders its numbers and
`OK`; a trend cell carries a leading `+` when positive, the bare negative
number when negative, and an unsigned `0` when zero. -/
theorem csv_rows_rendered :
    (∀ r : KeywordResult, csvRowLine r
        = String.intercalate "," ((csvCells r).map quoteCell))
    ∧ (∀ (r : KeywordResult) (e : String), r.error = some e →
        csvCells r = [r.keyword, "Error", "-", "-", "-", "-", e])
    ∧ (∀ (r : KeywordResult) (pt st : Int), r.error = none →
        r.popularityTrend = some pt → r.supplyTrend = some st →
        csvCells r = [r.keyword, toString r.audiobooks, toString r.avgPopularity,
          toString r.estimatedTrendsInterest, trendCell (some pt),
          trendCell (some st), "OK"])
    ∧ (∀ v : Int, 0 < v → trendCell (some v) = "+" ++ toString v)
    ∧ (∀ v : Int, v < 0 → trendCell (some v) = toString v)
    ∧ trendCell (some 0) = "0" := by
  refine ⟨fun r => rfl, ?_, ?_, ?_, ?_, by decide⟩
  · intro r e herr
    simp [csvCells, herr]
  · intro r pt st herr hpt hst
    simp [csvCells, herr, hpt, hst]
  · intro v hv
    simp [trendCell, hv]
  · intro v hv
    simp [trendCell, not_lt.2 hv.le]

/-- A failed row and a successful row for the CSV witness. -/
def csvOkRow : KeywordResult := successResult [] "2026-01-01" "kw2" 5 [some 40]

/-- Witness for C9 at one failed and one successful row. -/
theorem csv_rows_rendered_witness :
    csvCells failedRow = ["a", "Error", "-", "-", "-", "-", "API error: 500"]
    ∧ csvCells csvOkRow = [csvOkRow.keyword, toString csvOkRow.audiobooks,
        toString csvOkRow.avgPopularity, toString csvOkRow.estimatedTrendsInterest,
        trendCell (some 0), trendCell (some 0), "OK"]
    ∧ trendCell (some 3) = "+" ++ toString (3 : Int)
    ∧ trendCell (some (-2)) = toString (-2 : Int) :=
  ⟨by
    have h := csv_rows_rendered.2.1 failedRow "API error: 500" (by decide)
    simpa [failedRow, failedResult] using h,
   csv_rows_rendered.2.2.1 csvOkRow 0 0 (by decide) (by decide) (by decide),
   csv_rows_rendered.2.2.2.1 3 (by decide),
   csv_rows_rendered.2.2.2.2.1 (-2) (by decide)⟩

/-! ## C10 — CSV quoting applies no escaping -/

/-- C10: each cell is the raw string wrapped in exactly one pair of double
quotes — the content appears verbatim, with no escaping — so a cell value
containing a double quote yields more than two quote characters and the
surrounding pair no longer delimits the field. -/
theorem csv_cells_unescaped :
    (∀ s : String, quoteCell s = "\"" ++ s ++ "\"")
    ∧ (∀ s : String, (quoteCell s).data = '"' :: (s.data ++ ['"']))
    ∧ (∀ s : String, '"' ∈ s.data → 2 < ((quoteCell s).data.count '"')) := by
  have hdata : ∀ s : String, (quoteCell s).data = '"' :: (s.data ++ ['"']) := by
    intro s
    show ("\"" ++ s ++ "\"" : String).data = _
    rw [String.data_append, String.data_append]
    rfl
  refine ⟨fun s => rfl, hdata, ?_⟩
  intro s hs
  have hpos : 0 < s.data.count '"' := List.count_pos_iff.2 hs
  have hcount : ('"' :: (s.data ++ ['"'])).count '"' = s.data.count '"' + 2 := by
    simp [List.count_cons, List.count_append]
  rw [hdata s, hcount]
  omega

/-- Witness for C10: a keyword containing an embedded double quote. -/
theorem csv_cells_unescaped_witness :
    ('"' ∈ ("mys\"tery" : String).data)
    ∧ 2 < ((quoteCell "mys\"tery").data.count '"') :=
  ⟨by decide, csv_cells_unescaped.2.2 "mys\"tery" (by decide)⟩

example : jsRoundDiv 5 2 = 3 := by decide
example : jsRoundDiv (-5) 2 = -2 := by decide
example : avgPopularity [] = 50 := by decide
example : avgPopularity [some 40] = 40 := by decide
example : avgPopularity [some 0] = 50 := by decide
example : avgPopularity [some 30, none] = 40 := by decide
example : estimatedTrendsInterest 499 = 100 := by decide
example : estimatedTrendsInterest 2 = 0 := by decide

end AudiobookResearch
